import Mathlib

/-!
Shallow embedding of the Expression & Motion Sequencing Controller of the
reachy-mini-gemini repository (file src/reachy_mini_gemini_app/movements.py,
class MovementController), together with proofs about the claims of its
specification.

Modelling conventions:
* Python floats are modelled as exact rationals. Numeric literals are
  transcribed verbatim from the source; np.radians is multiplication by the
  double-precision constant 0.017453292519943295 (the 64-bit rounding of
  pi / 180 used by numpy) modelled as an exact rational.
* The async structure of the code is sequential within one operation call
  (every device call and every sleep is awaited in order), so an operation is
  modelled as a pure function from its arguments to the ordered trace of
  device calls it issues, the log records it emits, and the string it returns.
* The device boundary (robot.goto_target inside the helper _goto_target) is
  modelled by two oracles: et i gives the wall-clock duration of the i-th
  device call of the operation, and fails i tells whether that call raises.
  The try/except in _goto_target catches every device exception, logs
  "Motion error" and returns normally; hence a failing call still produces a
  normally-returning step whose failed flag is set, which is exactly what the
  source does.
* Each awaited device call is recorded as a StepResult carrying the issued
  DeviceCall, the time at which it was issued, the time at which it returned,
  and whether the underlying device call failed. asyncio.sleep pauses after a
  call are the postDelay field of the corresponding MotionStep.
* Python max(a, b) and min(a, b) on numbers agree with the lattice max and
  min on the rationals, which is how they are modelled.
* f-string interpolation of numbers is modelled with toString on the exact
  rational or integer value.
-/

namespace ReachyMovements

/-- Head orientation in degrees, the (roll, pitch, yaw) triple handed to
create_head_pose. The pose matrix built by create_head_pose is opaque to this
development, so the triple itself stands for the built pose. -/
structure Orientation where
  roll : ℚ
  pitch : ℚ
  yaw : ℚ
  deriving DecidableEq

/-- Antenna target in radians, in the list order [right, left] used by the
source when passing antennas=[...] to goto_target. -/
structure Antennas where
  right : ℚ
  left : ℚ
  deriving DecidableEq

/-- One command issued to robot.goto_target: optional head pose, optional
antenna pair, and the duration hint. -/
structure DeviceCall where
  head : Option Orientation
  antennas : Option Antennas
  duration : ℚ
  deriving DecidableEq

/-- One step of a choreography: the device call data plus the asyncio.sleep
pause the source performs after awaiting that call (0 when the source has no
sleep after the call). -/
structure MotionStep where
  head : Option Orientation
  antennas : Option Antennas
  duration : ℚ
  postDelay : ℚ
  deriving DecidableEq

/-- The device call a step issues. -/
def stepCall (st : MotionStep) : DeviceCall :=
  { head := st.head, antennas := st.antennas, duration := st.duration }

/-- Record of one executed step: the call, when it was issued, when the
underlying device call returned, and whether that call raised (the exception
being swallowed by _goto_target). -/
structure StepResult where
  call : DeviceCall
  issueTime : ℚ
  returnTime : ℚ
  failed : Bool
  deriving DecidableEq

/-- Execute a list of motion steps in order, starting at device-call index i
and time t. Each step issues its device call at the current time, the call
returns after et i, and the clock then advances by the postDelay of the step.
This is the sequential await structure of the source: every goto_target is
awaited before the following asyncio.sleep, which is awaited before the next
step. -/
def runSteps (et : ℕ → ℚ) (fails : ℕ → Bool) : ℕ → ℚ → List MotionStep → List StepResult
  | _, _, [] => []
  | i, t, st :: rest =>
    { call := stepCall st, issueTime := t, returnTime := t + et i, failed := fails i } ::
      runSteps et fails (i + 1) (t + et i + st.postDelay) rest

/-- Severity of a log record. -/
inductive LogLevel where
  | info
  | warning
  | error
  deriving DecidableEq, BEq

/-- One log record: severity and message text. -/
structure LogMsg where
  level : LogLevel
  msg : String
  deriving DecidableEq

/-- The record logged by the except branch of _goto_target. The source
interpolates the exception text; only the fixed prefix is modelled. -/
def motionErrorLog : LogMsg := { level := .error, msg := "Motion error" }

/-- The error records produced by failing device calls of a trace, in trace
order, as logged by _goto_target. -/
def stepErrorLogs (tr : List StepResult) : List LogMsg :=
  tr.filterMap fun r => if r.failed then some motionErrorLog else none

/-- Everything one facade operation produces: the ordered device-call trace,
the log records, and the returned status string. -/
structure OpResult where
  trace : List StepResult
  logs : List LogMsg
  ret : String

/-- The bare device calls of an operation, in issue order. -/
def OpResult.calls (r : OpResult) : List DeviceCall := r.trace.map (·.call)

/-- Whether the operation logged at warning level. -/
def OpResult.hasWarning (r : OpResult) : Bool :=
  r.logs.any fun m => decide (m.level = .warning)

/- Safety clamps, transcribed from the max/min expressions of the source. -/

/-- Roll clamp of move_head_precise: max(-30, min(30, roll)). -/
def clampRoll (x : ℚ) : ℚ := max (-30) (min 30 x)

/-- Pitch clamp of move_head_precise: max(-30, min(30, pitch)). -/
def clampPitch (x : ℚ) : ℚ := max (-30) (min 30 x)

/-- Yaw clamp of move_head_precise: max(-45, min(45, yaw)). -/
def clampYaw (x : ℚ) : ℚ := max (-45) (min 45 x)

/-- Device-layer antenna clamp of move_antennas: max(-1.57, min(1.57, rad)). -/
def clampAntRad (x : ℚ) : ℚ := max (-1.57) (min 1.57 x)

/-- Repeat-count clamp of nod_yes and shake_no: max(1, min(5, times)). -/
def clampCount (t : ℤ) : ℤ := max 1 (min 5 t)

/-- Tilt-angle clamp of tilt_head: max(5, min(30, angle)). -/
def clampTilt (x : ℚ) : ℚ := max 5 (min 30 x)

/-- Degree-to-radian factor: the double-precision value of pi / 180 by which
np.radians multiplies, as an exact rational. -/
def deg2rad : ℚ := 0.017453292519943295

/-- np.radians: degrees times deg2rad. -/
def radians (x : ℚ) : ℚ := x * deg2rad

/- Static gesture tables, transcribed from the dict literals of the source. -/

/-- The poses dict of move_head: direction name to (roll, pitch, yaw). -/
def poses : List (String × Orientation) :=
  [("left", ⟨0, 0, 25⟩),
   ("right", ⟨0, 0, -25⟩),
   ("up", ⟨0, -20, 0⟩),
   ("down", ⟨0, 20, 0⟩),
   ("center", ⟨0, 0, 0⟩)]

/-- The expressions dict of antenna_expression: preset name to the antenna
pair in [right, left] order. -/
def antennaPresets : List (String × Antennas) :=
  [("neutral", ⟨0, 0⟩),
   ("alert", ⟨0.8, -0.8⟩),
   ("droopy", ⟨-1.0, 1.0⟩),
   ("asymmetric", ⟨0.5, 0.2⟩),
   ("perky", ⟨1.0, -1.0⟩)]

/-- Repetition of a loop body: the steps produced by
for _ in range(n): body. -/
def loopSteps (body : List MotionStep) : ℕ → List MotionStep
  | 0 => []
  | n + 1 => body ++ loopSteps body n

/- Choreography step lists, one per multi-step motion of the source, each
transcribed call-by-call: head triples are the create_head_pose arguments
(absent axes default to 0), antenna pairs the literal lists, the third field
the duration argument of _goto_target and the fourth the asyncio.sleep that
follows the await (0 when no sleep follows). -/

/-- One nod cycle of nod_yes: pitch 15 down then pitch -10 up. -/
def nodCycle : List MotionStep :=
  [⟨some ⟨0, 15, 0⟩, none, 0.15, 0.1⟩,
   ⟨some ⟨0, -10, 0⟩, none, 0.15, 0.1⟩]

/-- Full step list of nod_yes for a clamped count n: n cycles then the
return-to-center step. -/
def nodSteps (n : ℕ) : List MotionStep :=
  loopSteps nodCycle n ++ [⟨some ⟨0, 0, 0⟩, none, 0.2, 0⟩]

/-- One shake cycle of shake_no: yaw 20 left then yaw -20 right. -/
def shakeCycle : List MotionStep :=
  [⟨some ⟨0, 0, 20⟩, none, 0.15, 0.05⟩,
   ⟨some ⟨0, 0, -20⟩, none, 0.15, 0.05⟩]

/-- Full step list of shake_no for a clamped count n. -/
def shakeSteps (n : ℕ) : List MotionStep :=
  loopSteps shakeCycle n ++ [⟨some ⟨0, 0, 0⟩, none, 0.2, 0⟩]

/-- Steps of _happy_expression. -/
def happySteps : List MotionStep :=
  [⟨some ⟨15, 0, 0⟩, some ⟨0.5, -0.5⟩, 0.2, 0.15⟩,
   ⟨some ⟨-15, 0, 0⟩, some ⟨-0.5, 0.5⟩, 0.2, 0.15⟩,
   ⟨some ⟨0, 0, 0⟩, some ⟨0.3, -0.3⟩, 0.2, 0⟩]

/-- Steps of _sad_expression. -/
def sadSteps : List MotionStep :=
  [⟨some ⟨0, 25, 0⟩, some ⟨-1.2, 1.2⟩, 0.8, 0.8⟩,
   ⟨some ⟨0, 5, 0⟩, some ⟨-0.3, 0.3⟩, 0.5, 0⟩]

/-- Steps of _surprised_expression. -/
def surprisedSteps : List MotionStep :=
  [⟨some ⟨0, -20, 0⟩, some ⟨1.0, -1.0⟩, 0.12, 0.4⟩,
   ⟨some ⟨0, 0, 0⟩, some ⟨0.3, -0.3⟩, 0.3, 0⟩]

/-- Steps of _curious_expression. -/
def curiousSteps : List MotionStep :=
  [⟨some ⟨20, -10, 0⟩, some ⟨0.6, 0.1⟩, 0.4, 0.5⟩,
   ⟨some ⟨0, 0, 0⟩, some ⟨0, 0⟩, 0.3, 0⟩]

/-- One bounce cycle of _excited_expression. -/
def excitedCycle : List MotionStep :=
  [⟨some ⟨0, -10, 0⟩, some ⟨0.8, -0.8⟩, 0.1, 0.08⟩,
   ⟨some ⟨0, 5, 0⟩, some ⟨-0.2, 0.2⟩, 0.1, 0.08⟩]

/-- Steps of _excited_expression: three bounce cycles then the perky end pose. -/
def excitedSteps : List MotionStep :=
  loopSteps excitedCycle 3 ++ [⟨some ⟨0, 0, 0⟩, some ⟨0.5, -0.5⟩, 0.2, 0⟩]

/-- Steps of _sleepy_expression. -/
def sleepySteps : List MotionStep :=
  [⟨some ⟨8, 25, 0⟩, some ⟨-1.3, 1.3⟩, 1.2, 0.5⟩,
   ⟨some ⟨8, 30, 0⟩, none, 0.3, 0.3⟩,
   ⟨some ⟨0, 15, 0⟩, some ⟨-0.8, 0.8⟩, 0.4, 0⟩]

/-- Steps of _confused_expression. -/
def confusedSteps : List MotionStep :=
  [⟨some ⟨15, -5, 0⟩, some ⟨0.4, 0.6⟩, 0.3, 0.3⟩,
   ⟨some ⟨-15, -5, 0⟩, some ⟨0.6, 0.4⟩, 0.3, 0.3⟩,
   ⟨some ⟨8, 0, 0⟩, some ⟨0.2, 0.4⟩, 0.25, 0⟩]

/-- Steps of _angry_expression. -/
def angrySteps : List MotionStep :=
  [⟨some ⟨0, 10, 0⟩, some ⟨0.8, -0.8⟩, 0.2, 0.2⟩,
   ⟨some ⟨0, 10, 10⟩, none, 0.1, 0.1⟩,
   ⟨some ⟨0, 10, -10⟩, none, 0.1, 0.1⟩,
   ⟨some ⟨0, 5, 0⟩, some ⟨0.5, -0.5⟩, 0.2, 0⟩]

/-- Steps of _love_expression. -/
def loveSteps : List MotionStep :=
  [⟨some ⟨12, -8, 0⟩, some ⟨0.4, -0.4⟩, 0.5, 0.4⟩,
   ⟨some ⟨-12, -8, 0⟩, some ⟨-0.4, 0.4⟩, 0.5, 0.4⟩,
   ⟨some ⟨0, 0, 0⟩, some ⟨0.2, -0.2⟩, 0.3, 0⟩]

/-- The emotion_methods dict of express_emotion, with each private expression
method replaced by its step list. -/
def emotionTable : List (String × List MotionStep) :=
  [("happy", happySteps),
   ("sad", sadSteps),
   ("surprised", surprisedSteps),
   ("curious", curiousSteps),
   ("excited", excitedSteps),
   ("sleepy", sleepySteps),
   ("confused", confusedSteps),
   ("angry", angrySteps),
   ("love", loveSteps)]

/-- Membership test and subscript of the emotion_methods dict combined;
none models a name absent from the dict. -/
def emotionSteps (e : String) : Option (List MotionStep) :=
  emotionTable.lookup e

/-- One cycle of the silly branch of do_dance. -/
def sillyCycle : List MotionStep :=
  [⟨some ⟨25, 0, 15⟩, some ⟨1.0, 0⟩, 0.2, 0.15⟩,
   ⟨some ⟨-25, 0, -15⟩, some ⟨0, -1.0⟩, 0.2, 0.15⟩]

/-- One cycle of the default/happy branch of do_dance. -/
def defaultDanceCycle : List MotionStep :=
  [⟨some ⟨15, -5, 0⟩, some ⟨0.6, -0.6⟩, 0.15, 0.1⟩,
   ⟨some ⟨-15, -5, 0⟩, some ⟨-0.6, 0.6⟩, 0.15, 0.1⟩]

/-- Full step list of do_dance for a given style: two silly cycles when the
style is exactly "silly", otherwise three default cycles; both branches end
with the return-to-neutral step. -/
def danceSteps (style : String) : List MotionStep :=
  (if style = "silly" then loopSteps sillyCycle 2 else loopSteps defaultDanceCycle 3) ++
    [⟨some ⟨0, 0, 0⟩, some ⟨0, 0⟩, 0.25, 0⟩]

/- The facade operations of MovementController. Each returns the OpResult
described above; the two operations whose body subscripts a dict return an
Option, with none standing for an uncaught KeyError (which the control flow
of the source makes unreachable, as proved below). Python default arguments
are noted per operation; callers of this model always pass them explicitly. -/

/-- move_head(direction, duration=0.5): look up the direction in the poses
dict, falling back to "center" with a warning when the name is unknown, and
issue one head-only call. The status string echoes the resolved direction. -/
def move_head (direction : String) (duration : ℚ) (et : ℕ → ℚ) (fails : ℕ → Bool) :
    Option OpResult :=
  let fallback := (poses.lookup direction).isNone
  let d := if fallback then "center" else direction
  (poses.lookup d).map fun o =>
    let tr := runSteps et fails 0 0 [⟨some o, none, duration, 0⟩]
    { trace := tr
      logs :=
        (if fallback then [⟨.warning, "Unknown direction: " ++ direction ++ ", using center"⟩]
         else []) ++ [⟨.info, "Moving head " ++ d⟩] ++ stepErrorLogs tr
      ret := "Moved head " ++ d }

/-- move_head_precise(roll=0, pitch=0, yaw=0, duration=0.5): clamp each axis
to its safe range, issue one head-only call built from the clamped triple,
and report the clamped values in the status string. -/
def move_head_precise (roll pitch yaw duration : ℚ) (et : ℕ → ℚ) (fails : ℕ → Bool) :
    OpResult :=
  let roll := clampRoll roll
  let pitch := clampPitch pitch
  let yaw := clampYaw yaw
  let tr := runSteps et fails 0 0 [⟨some ⟨roll, pitch, yaw⟩, none, duration, 0⟩]
  { trace := tr
    logs :=
      [⟨.info, "Moving head to roll=" ++ toString roll ++ ", pitch=" ++ toString pitch ++
        ", yaw=" ++ toString yaw⟩] ++ stepErrorLogs tr
    ret := "Moved head to roll=" ++ toString roll ++ ", pitch=" ++ toString pitch ++
      ", yaw=" ++ toString yaw }

/-- move_antennas(right_angle=0, left_angle=0, duration=0.3): convert each
angle to radians, clamp the radian values to the device range, issue one
antennas-only call, and report the original degree arguments in the status
string. -/
def move_antennas (right_angle left_angle duration : ℚ) (et : ℕ → ℚ) (fails : ℕ → Bool) :
    OpResult :=
  let right_rad := clampAntRad (radians right_angle)
  let left_rad := clampAntRad (radians left_angle)
  let tr := runSteps et fails 0 0 [⟨none, some ⟨right_rad, left_rad⟩, duration, 0⟩]
  { trace := tr
    logs :=
      [⟨.info, "Moving antennas: right=" ++ toString right_angle ++ ", left=" ++
        toString left_angle⟩] ++ stepErrorLogs tr
    ret := "Moved antennas to right=" ++ toString right_angle ++ ", left=" ++
      toString left_angle ++ " degrees" }

/-- antenna_expression(expression): look up the preset, silently falling back
to "neutral" on an unknown name (the source logs nothing in that branch), and
issue one antennas-only call of duration 0.3. -/
def antenna_expression (expression : String) (et : ℕ → ℚ) (fails : ℕ → Bool) :
    Option OpResult :=
  let e := if (antennaPresets.lookup expression).isNone then "neutral" else expression
  (antennaPresets.lookup e).map fun a =>
    let tr := runSteps et fails 0 0 [⟨none, some a, 0.3, 0⟩]
    { trace := tr
      logs := [⟨.info, "Setting antenna expression: " ++ e⟩] ++ stepErrorLogs tr
      ret := "Set antennas to " ++ e }

/-- nod_yes(times=2): clamp the count to [1, 5] and run the nod choreography,
reporting the clamped count. -/
def nod_yes (times : ℤ) (et : ℕ → ℚ) (fails : ℕ → Bool) : OpResult :=
  let t := max 1 (min 5 times)
  let tr := runSteps et fails 0 0 (nodSteps t.toNat)
  { trace := tr
    logs := [⟨.info, "Nodding yes " ++ toString t ++ " times"⟩] ++ stepErrorLogs tr
    ret := "Nodded yes " ++ toString t ++ " times" }

/-- shake_no(times=2): clamp the count to [1, 5] and run the shake
choreography, reporting the clamped count. -/
def shake_no (times : ℤ) (et : ℕ → ℚ) (fails : ℕ → Bool) : OpResult :=
  let t := max 1 (min 5 times)
  let tr := runSteps et fails 0 0 (shakeSteps t.toNat)
  { trace := tr
    logs := [⟨.info, "Shaking no " ++ toString t ++ " times"⟩] ++ stepErrorLogs tr
    ret := "Shook head no " ++ toString t ++ " times" }

/-- tilt_head(direction, angle=20): clamp the angle to [5, 30]; a direction
equal to "left" tilts by the clamped angle, any other string tilts by its
negation. The status string echoes the callers direction verbatim. -/
def tilt_head (direction : String) (angle : ℚ) (et : ℕ → ℚ) (fails : ℕ → Bool) :
    OpResult :=
  let a := clampTilt angle
  let roll := if direction = "left" then a else -a
  let tr := runSteps et fails 0 0 [⟨some ⟨roll, 0, 0⟩, none, 0.4, 0⟩]
  { trace := tr
    logs :=
      [⟨.info, "Tilting head " ++ direction ++ " by " ++ toString a ++ " degrees"⟩] ++
        stepErrorLogs tr
    ret := "Tilted head " ++ direction }

/-- look_at_camera(): one combined center call. -/
def look_at_camera (et : ℕ → ℚ) (fails : ℕ → Bool) : OpResult :=
  let tr := runSteps et fails 0 0 [⟨some ⟨0, 0, 0⟩, some ⟨0, 0⟩, 0.3, 0⟩]
  { trace := tr, logs := stepErrorLogs tr, ret := "Looking at camera" }

/-- wake_up(): calls robot.wake_up (a lifecycle call, not a goto_target, so
the device-call trace is empty) inside try/except; wakeFails tells whether
that call raises and err is the exception text. -/
def wake_up (wakeFails : Bool) (err : String) : OpResult :=
  { trace := []
    logs := [⟨.info, "Performing wake up animation"⟩] ++
      (if wakeFails then [⟨.error, "Wake up error: " ++ err⟩] else [])
    ret := if wakeFails then "Wake up failed: " ++ err else "Woke up and ready!" }

/-- go_to_sleep(): calls robot.goto_sleep inside try/except, like wake_up. -/
def go_to_sleep (sleepFails : Bool) (err : String) : OpResult :=
  { trace := []
    logs := [⟨.info, "Going to sleep"⟩] ++
      (if sleepFails then [⟨.error, "Sleep error: " ++ err⟩] else [])
    ret := if sleepFails then "Sleep failed: " ++ err else "Going to sleep..." }

/-- express_emotion(emotion): after the info log, dispatch through the
emotion_methods dict. A known emotion runs its choreography and reports
"Expressed ..."; an unknown one logs a warning and returns
"Unknown emotion: ..." without issuing any device call. -/
def express_emotion (emotion : String) (et : ℕ → ℚ) (fails : ℕ → Bool) : OpResult :=
  match emotionSteps emotion with
  | some steps =>
    let tr := runSteps et fails 0 0 steps
    { trace := tr
      logs := [⟨.info, "Expressing emotion: " ++ emotion⟩] ++ stepErrorLogs tr
      ret := "Expressed " ++ emotion }
  | none =>
    { trace := []
      logs := [⟨.info, "Expressing emotion: " ++ emotion⟩,
               ⟨.warning, "Unknown emotion: " ++ emotion⟩]
      ret := "Unknown emotion: " ++ emotion }

/-- do_dance(style="default"): run the dance choreography of the style (any
style other than "silly" dances the default branch; there is no unknown-style
check and no warning) and echo the callers style string. -/
def do_dance (style : String) (et : ℕ → ℚ) (fails : ℕ → Bool) : OpResult :=
  let tr := runSteps et fails 0 0 (danceSteps style)
  { trace := tr
    logs := [⟨.info, "Dancing: " ++ style⟩] ++ stepErrorLogs tr
    ret := "Finished " ++ style ++ " dance" }

/-- reset_position(): one combined neutral call of duration 0.5. -/
def reset_position (et : ℕ → ℚ) (fails : ℕ → Bool) : OpResult :=
  let tr := runSteps et fails 0 0 [⟨some ⟨0, 0, 0⟩, some ⟨0, 0⟩, 0.5, 0⟩]
  { trace := tr, logs := stepErrorLogs tr, ret := "Reset to neutral position" }

/- Bounds predicates: a value already lies within the safety limits exactly
when the corresponding clamp leaves it unchanged. -/

/-- Whether a head orientation is a fixed point of the per-axis clamps. -/
def headOK (o : Orientation) : Bool :=
  decide (clampRoll o.roll = o.roll) && decide (clampPitch o.pitch = o.pitch) &&
    decide (clampYaw o.yaw = o.yaw)

/-- Whether an antenna pair is a fixed point of the device-layer clamp. -/
def antennasOK (a : Antennas) : Bool :=
  decide (clampAntRad a.right = a.right) && decide (clampAntRad a.left = a.left)

/-- Whether every angular field of a device call is a fixed point of its
clamp. -/
def callOK (c : DeviceCall) : Bool :=
  c.head.all headOK && c.antennas.all antennasOK

/-- Whether every device call of a trace is within the safety limits. -/
def clampedTrace (r : OpResult) : Bool :=
  r.trace.all fun s => callOK s.call

/- General lemmas about the sequencer. -/

theorem runSteps_length (et : ℕ → ℚ) (fails : ℕ → Bool) :
    ∀ (steps : List MotionStep) (i : ℕ) (t : ℚ),
    (runSteps et fails i t steps).length = steps.length := by
  intro steps
  induction steps with
  | nil => intro i t; rfl
  | cons st rest ih => intro i t; simp [runSteps, ih]

theorem runSteps_calls (et : ℕ → ℚ) (fails : ℕ → Bool) :
    ∀ (steps : List MotionStep) (i : ℕ) (t : ℚ),
    (runSteps et fails i t steps).map (·.call) = steps.map stepCall := by
  intro steps
  induction steps with
  | nil => intro i t; rfl
  | cons st rest ih => intro i t; simp [runSteps, ih]

theorem runSteps_all (et : ℕ → ℚ) (fails : ℕ → Bool) (p : DeviceCall → Bool) :
    ∀ (steps : List MotionStep) (i : ℕ) (t : ℚ),
    ((runSteps et fails i t steps).all fun s => p s.call) =
      steps.all fun st => p (stepCall st) := by
  intro steps
  induction steps with
  | nil => intro i t; rfl
  | cons st rest ih => intro i t; simp [runSteps, ih]

/-- Whether a trace realizes a step list in order and on time: consecutive
calls are separated by exactly the postDelay of the earlier step, measured
from the return of its device call to the issue of the next. -/
def timedOK : List StepResult → List MotionStep → Bool
  | [], [] => true
  | [_], [_] => true
  | r :: r2 :: rs, st :: sts =>
    decide (r2.issueTime = r.returnTime + st.postDelay) && timedOK (r2 :: rs) sts
  | _, _ => false

theorem runSteps_timedOK (et : ℕ → ℚ) (fails : ℕ → Bool) :
    ∀ (steps : List MotionStep) (i : ℕ) (t : ℚ),
    timedOK (runSteps et fails i t steps) steps = true := by
  intro steps
  induction steps with
  | nil => intro i t; rfl
  | cons st rest ih =>
    intro i t
    cases rest with
    | nil => rfl
    | cons st2 rest2 =>
      have h := ih (i + 1) (t + et i + st.postDelay)
      simp only [runSteps] at h ⊢
      simp [timedOK, h]

theorem loopSteps_length (body : List MotionStep) :
    ∀ n : ℕ, (loopSteps body n).length = n * body.length := by
  intro n
  induction n with
  | zero => simp [loopSteps]
  | succ m ih => simp [loopSteps, ih, Nat.succ_mul, Nat.add_comm]

theorem loopSteps_all (body : List MotionStep) (p : MotionStep → Bool)
    (h : body.all p = true) : ∀ n : ℕ, (loopSteps body n).all p = true := by
  intro n
  induction n with
  | zero => rfl
  | succ m ih => simp [loopSteps, List.all_append, h, ih]

/- General lemmas about the clamp shape max lo (min hi x). -/

theorem clamp_fix {lo hi x : ℚ} (h1 : lo ≤ x) (h2 : x ≤ hi) :
    max lo (min hi x) = x := by
  rw [min_eq_right h2, max_eq_right h1]

theorem le_clamp (lo hi x : ℚ) : lo ≤ max lo (min hi x) := le_max_left _ _

theorem clamp_le {lo hi : ℚ} (x : ℚ) (h : lo ≤ hi) : max lo (min hi x) ≤ hi :=
  max_le h (min_le_left _ _)

theorem clamp_idem {lo hi : ℚ} (x : ℚ) (h : lo ≤ hi) :
    max lo (min hi (max lo (min hi x))) = max lo (min hi x) :=
  clamp_fix (le_clamp lo hi x) (clamp_le x h)

/-- A string with a nonempty prefix is nonempty. -/
theorem prefix_ne_empty (a b : String) (h : a.data ≠ []) : a ++ b ≠ "" := by
  intro hc
  have hd := congrArg String.data hc
  simp [String.data_append] at hd
  exact h hd.1

/-- Whether a motion step only carries in-bounds values. -/
def stepOK (st : MotionStep) : Bool := callOK (stepCall st)

/-- Whether the pause after a step is nonnegative. -/
def delayOK (st : MotionStep) : Bool := decide (0 ≤ st.postDelay)

/-- A concrete device-duration oracle: every device call returns instantly. -/
def etZero : ℕ → ℚ := fun _ => 0

/-- A concrete failure oracle: no device call fails. -/
def noFail : ℕ → Bool := fun _ => false

/-- A concrete failure oracle: exactly the second device call (index 1)
fails. -/
def failSecond : ℕ → Bool := fun i => i == 1

/- Fixed-point lemmas for the individual clamps. -/

theorem clampRoll_idem (x : ℚ) : clampRoll (clampRoll x) = clampRoll x :=
  clamp_idem x (by norm_num)

theorem clampPitch_idem (x : ℚ) : clampPitch (clampPitch x) = clampPitch x :=
  clamp_idem x (by norm_num)

theorem clampYaw_idem (x : ℚ) : clampYaw (clampYaw x) = clampYaw x :=
  clamp_idem x (by norm_num)

theorem clampAntRad_idem (x : ℚ) : clampAntRad (clampAntRad x) = clampAntRad x :=
  clamp_idem x (by norm_num)

theorem headOK_clamped (r p y : ℚ) :
    headOK ⟨clampRoll r, clampPitch p, clampYaw y⟩ = true := by
  simp [headOK, clampRoll_idem, clampPitch_idem, clampYaw_idem]

theorem antennasOK_clamped (a b : ℚ) :
    antennasOK ⟨clampAntRad a, clampAntRad b⟩ = true := by
  simp [antennasOK, clampAntRad_idem]

/-- The clamped tilt roll, of either sign, is a fixed point of the roll
clamp. -/
theorem clampRoll_tilt (x : ℚ) (c : Prop) [Decidable c] :
    clampRoll (if c then clampTilt x else -clampTilt x) = if c then clampTilt x else -clampTilt x := by
  have h1 : (5 : ℚ) ≤ clampTilt x := le_clamp _ _ _
  have h2 : clampTilt x ≤ 30 := clamp_le _ (by norm_num)
  unfold clampRoll
  by_cases hc : c
  · simp only [if_pos hc]
    exact clamp_fix (by linarith) (by linarith)
  · simp only [if_neg hc]
    exact clamp_fix (by linarith) (by linarith)

/- Every step of every static choreography is within the safety limits. -/

theorem nodCycle_ok : nodCycle.all stepOK = true := by
  simp [nodCycle, stepOK, callOK, stepCall, headOK, clampRoll, clampPitch, clampYaw]
  all_goals norm_num [max_def, min_def]

theorem shakeCycle_ok : shakeCycle.all stepOK = true := by
  simp [shakeCycle, stepOK, callOK, stepCall, headOK, clampRoll, clampPitch, clampYaw]
  all_goals norm_num [max_def, min_def]

theorem centerStep_ok (d : ℚ) : stepOK ⟨some ⟨0, 0, 0⟩, none, d, 0⟩ = true := by
  simp [stepOK, callOK, stepCall, headOK, clampRoll, clampPitch, clampYaw]
  all_goals norm_num [max_def, min_def]

theorem nodSteps_ok (n : ℕ) : (nodSteps n).all stepOK = true := by
  have hc := centerStep_ok (0.2 : ℚ)
  simp [nodSteps, List.all_append, loopSteps_all nodCycle stepOK nodCycle_ok n, hc]

theorem shakeSteps_ok (n : ℕ) : (shakeSteps n).all stepOK = true := by
  have hc := centerStep_ok (0.2 : ℚ)
  simp [shakeSteps, List.all_append, loopSteps_all shakeCycle stepOK shakeCycle_ok n, hc]

theorem happySteps_ok : happySteps.all stepOK = true := by
  simp [happySteps, stepOK, callOK, stepCall, headOK, antennasOK,
    clampRoll, clampPitch, clampYaw, clampAntRad]
  all_goals norm_num [max_def, min_def]

theorem sadSteps_ok : sadSteps.all stepOK = true := by
  simp [sadSteps, stepOK, callOK, stepCall, headOK, antennasOK,
    clampRoll, clampPitch, clampYaw, clampAntRad]
  all_goals norm_num [max_def, min_def]

theorem surprisedSteps_ok : surprisedSteps.all stepOK = true := by
  simp [surprisedSteps, stepOK, callOK, stepCall, headOK, antennasOK,
    clampRoll, clampPitch, clampYaw, clampAntRad]
  all_goals norm_num [max_def, min_def]

theorem curiousSteps_ok : curiousSteps.all stepOK = true := by
  simp [curiousSteps, stepOK, callOK, stepCall, headOK, antennasOK,
    clampRoll, clampPitch, clampYaw, clampAntRad]
  all_goals norm_num [max_def, min_def]

theorem excitedCycle_ok : excitedCycle.all stepOK = true := by
  simp [excitedCycle, stepOK, callOK, stepCall, headOK, antennasOK,
    clampRoll, clampPitch, clampYaw, clampAntRad]
  all_goals norm_num [max_def, min_def]

theorem excitedSteps_ok : excitedSteps.all stepOK = true := by
  simp only [excitedSteps, List.all_append,
    loopSteps_all excitedCycle stepOK excitedCycle_ok 3, Bool.true_and]
  simp [stepOK, callOK, stepCall, headOK, antennasOK,
    clampRoll, clampPitch, clampYaw, clampAntRad]
  all_goals norm_num [max_def, min_def]

theorem sleepySteps_ok : sleepySteps.all stepOK = true := by
  simp [sleepySteps, stepOK, callOK, stepCall, headOK, antennasOK,
    clampRoll, clampPitch, clampYaw, clampAntRad]
  all_goals norm_num [max_def, min_def]

theorem confusedSteps_ok : confusedSteps.all stepOK = true := by
  simp [confusedSteps, stepOK, callOK, stepCall, headOK, antennasOK,
    clampRoll, clampPitch, clampYaw, clampAntRad]
  all_goals norm_num [max_def, min_def]

theorem angrySteps_ok : angrySteps.all stepOK = true := by
  simp [angrySteps, stepOK, callOK, stepCall, headOK, antennasOK,
    clampRoll, clampPitch, clampYaw, clampAntRad]
  all_goals norm_num [max_def, min_def]

theorem loveSteps_ok : loveSteps.all stepOK = true := by
  simp [loveSteps, stepOK, callOK, stepCall, headOK, antennasOK,
    clampRoll, clampPitch, clampYaw, clampAntRad]
  all_goals norm_num [max_def, min_def]

theorem sillyCycle_ok : sillyCycle.all stepOK = true := by
  simp [sillyCycle, stepOK, callOK, stepCall, headOK, antennasOK,
    clampRoll, clampPitch, clampYaw, clampAntRad]
  all_goals norm_num [max_def, min_def]

theorem defaultDanceCycle_ok : defaultDanceCycle.all stepOK = true := by
  simp [defaultDanceCycle, stepOK, callOK, stepCall, headOK, antennasOK,
    clampRoll, clampPitch, clampYaw, clampAntRad]
  all_goals norm_num [max_def, min_def]

theorem danceSteps_ok (style : String) : (danceSteps style).all stepOK = true := by
  unfold danceSteps
  by_cases h : style = "silly" <;>
    simp only [h, if_pos, if_true, if_neg, if_false, List.all_append,
      loopSteps_all sillyCycle stepOK sillyCycle_ok,
      loopSteps_all defaultDanceCycle stepOK defaultDanceCycle_ok, Bool.true_and] <;>
    · simp [stepOK, callOK, stepCall, headOK, antennasOK,
        clampRoll, clampPitch, clampYaw, clampAntRad]
      norm_num [max_def, min_def]

/-- Every pose in the direction table of move_head is within the limits. -/
theorem poses_headOK (k : String) :
    ∀ o, poses.lookup k = some o → headOK o = true := by
  intro o h
  simp only [poses, List.lookup] at h
  repeat' split at h
  all_goals try exact Option.noConfusion h
  all_goals obtain rfl := Option.some.inj h
  all_goals norm_num [headOK, clampRoll, clampPitch, clampYaw, max_def, min_def]

/-- Every preset in the antenna table is within the device limits. -/
theorem presets_antennasOK (k : String) :
    ∀ a, antennaPresets.lookup k = some a → antennasOK a = true := by
  intro a h
  simp only [antennaPresets, List.lookup] at h
  repeat' split at h
  all_goals try exact Option.noConfusion h
  all_goals obtain rfl := Option.some.inj h
  all_goals norm_num [antennasOK, clampAntRad, max_def, min_def]

/-- Every choreography in the emotion table only carries in-bounds steps. -/
theorem emotion_stepOK (e : String) :
    ∀ steps, emotionTable.lookup e = some steps → steps.all stepOK = true := by
  intro steps h
  simp only [emotionTable, List.lookup] at h
  repeat' split at h
  all_goals try exact Option.noConfusion h
  all_goals obtain rfl := Option.some.inj h
  exacts [happySteps_ok, sadSteps_ok, surprisedSteps_ok, curiousSteps_ok,
    excitedSteps_ok, sleepySteps_ok, confusedSteps_ok, angrySteps_ok, loveSteps_ok]

/-- A trace produced by the sequencer on in-bounds steps only carries
in-bounds calls. -/
theorem traceOK_runSteps (et : ℕ → ℚ) (fails : ℕ → Bool) (steps : List MotionStep)
    (h : steps.all stepOK = true) (i : ℕ) (t : ℚ) :
    ((runSteps et fails i t steps).all fun s => callOK s.call) = true := by
  rw [runSteps_all]
  simpa [stepOK] using h

/- Nonnegativity of the inter-step pauses of the named choreographies. -/

theorem nodSteps_delays (n : ℕ) : (nodSteps n).all delayOK = true := by
  have hb : nodCycle.all delayOK = true := by
    simp [nodCycle, delayOK]
    all_goals norm_num
  simp [nodSteps, List.all_append, loopSteps_all nodCycle delayOK hb n, delayOK]

theorem shakeSteps_delays (n : ℕ) : (shakeSteps n).all delayOK = true := by
  have hb : shakeCycle.all delayOK = true := by
    simp [shakeCycle, delayOK]
    all_goals norm_num
  simp [shakeSteps, List.all_append, loopSteps_all shakeCycle delayOK hb n, delayOK]

theorem happySteps_delays : happySteps.all delayOK = true := by
  simp [happySteps, delayOK]
  all_goals norm_num

/- Claim theorems. -/

/-- C4: for every rational input, each per-axis clamp of the source (head
roll, head pitch, head yaw out of move_head_precise; the device-layer antenna
radian clamp out of move_antennas; the tilt-angle clamp out of tilt_head) is
of the shape max(min-bound, min(max-bound, x)), yields a value within the
documented bounds of its axis, and is idempotent. -/
theorem clamp_bounds_and_idem (x : ℚ) :
    (clampRoll x = max (-30) (min 30 x) ∧
      -30 ≤ clampRoll x ∧ clampRoll x ≤ 30 ∧ clampRoll (clampRoll x) = clampRoll x) ∧
    (clampPitch x = max (-30) (min 30 x) ∧
      -30 ≤ clampPitch x ∧ clampPitch x ≤ 30 ∧ clampPitch (clampPitch x) = clampPitch x) ∧
    (clampYaw x = max (-45) (min 45 x) ∧
      -45 ≤ clampYaw x ∧ clampYaw x ≤ 45 ∧ clampYaw (clampYaw x) = clampYaw x) ∧
    (clampAntRad x = max (-1.57) (min 1.57 x) ∧
      -1.57 ≤ clampAntRad x ∧ clampAntRad x ≤ 1.57 ∧
      clampAntRad (clampAntRad x) = clampAntRad x) ∧
    (clampTilt x = max 5 (min 30 x) ∧
      5 ≤ clampTilt x ∧ clampTilt x ≤ 30 ∧ clampTilt (clampTilt x) = clampTilt x) := by
  refine ⟨⟨rfl, le_clamp _ _ _, clamp_le _ (by norm_num), clampRoll_idem x⟩,
    ⟨rfl, le_clamp _ _ _, clamp_le _ (by norm_num), clampPitch_idem x⟩,
    ⟨rfl, le_clamp _ _ _, clamp_le _ (by norm_num), clampYaw_idem x⟩,
    ⟨rfl, le_clamp _ _ _, clamp_le _ (by norm_num), clampAntRad_idem x⟩,
    ⟨rfl, le_clamp _ _ _, clamp_le _ (by norm_num), clamp_idem x (by norm_num)⟩⟩

/-- C7: move_head_precise(roll=50, pitch=0, yaw=0) (with the default duration
0.5) clamps the roll to 30 before the pose reaches the device - the single
device call carries the triple (30, 0, 0) - and the returned string reports
the clamped value 30, not the callers 50. This holds for every device
behavior. -/
theorem move_head_precise_clamps_roll (et : ℕ → ℚ) (fails : ℕ → Bool) :
    (move_head_precise 50 0 0 0.5 et fails).calls =
      [{ head := some ⟨30, 0, 0⟩, antennas := none, duration := 0.5 }] ∧
    (move_head_precise 50 0 0 0.5 et fails).ret =
      "Moved head to roll=30, pitch=0, yaw=0" := by
  have hr : clampRoll 50 = 30 := by norm_num [clampRoll, max_def, min_def]
  have hp : clampPitch 0 = 0 := by norm_num [clampPitch, max_def, min_def]
  have hy : clampYaw 0 = 0 := by norm_num [clampYaw, max_def, min_def]
  constructor
  · simp [move_head_precise, OpResult.calls, runSteps, stepCall, hr, hp, hy]
  · simp only [move_head_precise, hr, hp, hy]
    rfl

/-- C8: nod_yes(times=10) clamps the count to the range [1, 5], hence to 5,
and issues 5 repetitions of the 2-step up/down cycle plus 1 trailing
center-reset step, 11 device calls in total; for every count, both nod_yes
and shake_no clamp it into [1, 5] and issue 2 times-clamped plus 1 calls. -/
theorem repeat_count_clamped (et : ℕ → ℚ) (fails : ℕ → Bool) (times : ℤ) :
    (nod_yes 10 et fails).trace.length = 11 ∧
    (nod_yes 10 et fails).ret = "Nodded yes 5 times" ∧
    1 ≤ clampCount times ∧ clampCount times ≤ 5 ∧
    (nod_yes times et fails).trace.length = 2 * (clampCount times).toNat + 1 ∧
    (shake_no times et fails).trace.length = 2 * (clampCount times).toNat + 1 := by
  have hlen : ∀ t : ℤ, (nod_yes t et fails).trace.length =
      2 * (max 1 (min 5 t)).toNat + 1 := by
    intro t
    simp [nod_yes, runSteps_length, nodSteps, loopSteps_length, nodCycle, Nat.mul_comm]
  have hslen : ∀ t : ℤ, (shake_no t et fails).trace.length =
      2 * (max 1 (min 5 t)).toNat + 1 := by
    intro t
    simp [shake_no, runSteps_length, shakeSteps, loopSteps_length, shakeCycle, Nat.mul_comm]
  refine ⟨?_, ?_, ?_, ?_, hlen times, hslen times⟩
  · rw [hlen 10]; decide
  · simp only [nod_yes]; decide
  · exact le_max_left _ _
  · exact max_le (by decide) (min_le_left _ _)

/-- C3: a choreography of N steps issues exactly N device calls, in the
defined order, and each later call is issued exactly when the previous device
call has returned and the postDelay of that step has elapsed (so never
before), the pauses being nonnegative. Stated for the choreographies the
claim cites: nod_yes (for every count, via its step list nodSteps), shake_no,
and the happy expression run by express_emotion. -/
theorem choreography_sequencing (et : ℕ → ℚ) (fails : ℕ → Bool) (times : ℤ) :
    ((nod_yes times et fails).trace.length = (nodSteps (clampCount times).toNat).length ∧
      (nod_yes times et fails).calls = (nodSteps (clampCount times).toNat).map stepCall ∧
      timedOK (nod_yes times et fails).trace (nodSteps (clampCount times).toNat) = true ∧
      (nodSteps (clampCount times).toNat).all delayOK = true) ∧
    ((shake_no times et fails).trace.length = (shakeSteps (clampCount times).toNat).length ∧
      (shake_no times et fails).calls = (shakeSteps (clampCount times).toNat).map stepCall ∧
      timedOK (shake_no times et fails).trace (shakeSteps (clampCount times).toNat) = true ∧
      (shakeSteps (clampCount times).toNat).all delayOK = true) ∧
    ((express_emotion "happy" et fails).trace.length = happySteps.length ∧
      (express_emotion "happy" et fails).calls = happySteps.map stepCall ∧
      timedOK (express_emotion "happy" et fails).trace happySteps = true ∧
      happySteps.all delayOK = true) := by
  have hh : emotionSteps "happy" = some happySteps := rfl
  refine ⟨⟨?_, ?_, ?_, nodSteps_delays _⟩, ⟨?_, ?_, ?_, shakeSteps_delays _⟩,
    ⟨?_, ?_, ?_, happySteps_delays⟩⟩
  · simp [nod_yes, clampCount, runSteps_length]
  · simp [nod_yes, clampCount, OpResult.calls, runSteps_calls]
  · simp [nod_yes, clampCount, runSteps_timedOK]
  · simp [shake_no, clampCount, runSteps_length]
  · simp [shake_no, clampCount, OpResult.calls, runSteps_calls]
  · simp [shake_no, clampCount, runSteps_timedOK]
  · simp [express_emotion, hh, runSteps_length]
  · simp [express_emotion, hh, OpResult.calls, runSteps_calls]
  · simp [express_emotion, hh, runSteps_timedOK]

/-- C2: every Orientation and every antenna pair that reaches the device -
across every facade operation, every repeat count, every style, and every
step of every internal expression choreography - is a fixed point of the
Safety Clamp of its axis, i.e. already lies within the clamped ranges when
the device call is issued. -/
theorem device_values_clamped (et : ℕ → ℚ) (fails : ℕ → Bool)
    (direction expr emotion style : String)
    (r p y dur ra la ang : ℚ) (times : ℤ) :
    ((move_head direction dur et fails).all clampedTrace) = true ∧
    clampedTrace (move_head_precise r p y dur et fails) = true ∧
    clampedTrace (move_antennas ra la dur et fails) = true ∧
    ((antenna_expression expr et fails).all clampedTrace) = true ∧
    clampedTrace (nod_yes times et fails) = true ∧
    clampedTrace (shake_no times et fails) = true ∧
    clampedTrace (tilt_head direction ang et fails) = true ∧
    clampedTrace (look_at_camera et fails) = true ∧
    clampedTrace (express_emotion emotion et fails) = true ∧
    clampedTrace (do_dance style et fails) = true ∧
    clampedTrace (reset_position et fails) = true := by
  have hcc : ∀ d : ℚ, stepOK ⟨some ⟨0, 0, 0⟩, some ⟨0, 0⟩, d, 0⟩ = true := by
    intro d
    simp [stepOK, callOK, stepCall, headOK, antennasOK,
      clampRoll, clampPitch, clampYaw, clampAntRad]
    all_goals norm_num [max_def, min_def]
  refine ⟨?_, ?_, ?_, ?_, ?_, ?_, ?_, ?_, ?_, ?_, ?_⟩
  · unfold move_head
    cases hl : poses.lookup (if (poses.lookup direction).isNone then "center" else direction) with
    | none => simp [hl]
    | some o =>
      have ho := poses_headOK _ o hl
      simp only [hl, Option.map_some, Option.all_some, clampedTrace]
      exact traceOK_runSteps et fails _ (by simp [stepOK, callOK, stepCall, ho]) 0 0
  · unfold move_head_precise
    simp only [clampedTrace]
    exact traceOK_runSteps et fails _
      (by simp [stepOK, callOK, stepCall, headOK_clamped]) 0 0
  · unfold move_antennas
    simp only [clampedTrace]
    exact traceOK_runSteps et fails _
      (by simp [stepOK, callOK, stepCall, antennasOK_clamped]) 0 0
  · unfold antenna_expression
    cases hl : antennaPresets.lookup
        (if (antennaPresets.lookup expr).isNone then "neutral" else expr) with
    | none => simp [hl]
    | some a =>
      have ha := presets_antennasOK _ a hl
      simp only [hl, Option.map_some, Option.all_some, clampedTrace]
      exact traceOK_runSteps et fails _ (by simp [stepOK, callOK, stepCall, ha]) 0 0
  · unfold nod_yes
    simp only [clampedTrace]
    exact traceOK_runSteps et fails _ (nodSteps_ok _) 0 0
  · unfold shake_no
    simp only [clampedTrace]
    exact traceOK_runSteps et fails _ (shakeSteps_ok _) 0 0
  · unfold tilt_head
    simp only [clampedTrace]
    refine traceOK_runSteps et fails _ ?_ 0 0
    simp [stepOK, callOK, stepCall, headOK, clampRoll_tilt]
    norm_num [clampPitch, clampYaw, max_def, min_def]
  · unfold look_at_camera
    simp only [clampedTrace]
    exact traceOK_runSteps et fails _ (by simpa using hcc 0.3) 0 0
  · unfold express_emotion
    cases hs : emotionSteps emotion with
    | none => simp [clampedTrace]
    | some steps =>
      have := emotion_stepOK emotion steps hs
      simp only [clampedTrace]
      exact traceOK_runSteps et fails _ this 0 0
  · unfold do_dance
    simp only [clampedTrace]
    exact traceOK_runSteps et fails _ (danceSteps_ok style) 0 0
  · unfold reset_position
    simp only [clampedTrace]
    exact traceOK_runSteps et fails _ (by simpa using hcc 0.5) 0 0

/-- The error records of _goto_target are never warnings. -/
theorem stepErrorLogs_no_warning (tr : List StepResult) :
    ((stepErrorLogs tr).any fun m => decide (m.level = LogLevel.warning)) = false := by
  induction tr with
  | nil => rfl
  | cons r rs ih =>
    cases hf : r.failed <;>
      simp_all [stepErrorLogs, List.filterMap_cons, hf, motionErrorLog]

/-- C9: move_antennas clamps on the radian values after the degree-to-radian
conversion - the single device call carries clampAntRad(radians(angle)) for
each antenna - while the returned string always reports the callers original
degree arguments; hence whenever an input lies outside plus or minus 90
degrees, the radian value the device was commanded differs from the radian
equivalent of the reported angle. -/
theorem move_antennas_reporting (et : ℕ → ℚ) (fails : ℕ → Bool) (r l dur : ℚ) :
    (move_antennas r l dur et fails).calls =
      [{ head := none,
         antennas := some ⟨clampAntRad (radians r), clampAntRad (radians l)⟩,
         duration := dur }] ∧
    (move_antennas r l dur et fails).ret =
      "Moved antennas to right=" ++ toString r ++ ", left=" ++ toString l ++ " degrees" ∧
    (90 < |r| → clampAntRad (radians r) ≠ radians r) ∧
    (90 < |l| → clampAntRad (radians l) ≠ radians l) := by
  have key : ∀ z : ℚ, 90 < |z| → clampAntRad (radians z) ≠ radians z := by
    intro z hz
    rcases abs_cases z with ⟨he, _⟩ | ⟨he, _⟩
    · have hz90 : (90 : ℚ) < z := by rw [he] at hz; exact hz
      have hv : (1.57 : ℚ) < radians z := by
        unfold radians deg2rad
        nlinarith
      unfold clampAntRad
      rw [min_eq_left hv.le, max_eq_right (by norm_num : (-1.57 : ℚ) ≤ 1.57)]
      intro hc
      rw [← hc] at hv
      exact lt_irrefl _ hv
    · have hz90 : z < -90 := by rw [he] at hz; linarith
      have hv : radians z < -1.57 := by
        unfold radians deg2rad
        nlinarith
      unfold clampAntRad
      rw [min_eq_right (by linarith : radians z ≤ 1.57), max_eq_left hv.le]
      intro hc
      rw [hc] at hv
      exact lt_irrefl _ hv
  refine ⟨?_, rfl, key r, key l⟩
  simp [move_antennas, OpResult.calls, runSteps, stepCall]

/-- Witness for C9 at the concrete inputs 100 and -100 degrees: both lie
outside plus or minus 90, so the clamped radian command differs from the
radian equivalent of the reported angle. -/
theorem move_antennas_reporting_witness :
    clampAntRad (radians 100) ≠ radians 100 ∧
    clampAntRad (radians (-100)) ≠ radians (-100) := by
  have h := move_antennas_reporting etZero noFail 100 (-100) 0.3
  exact ⟨h.2.2.1 (by norm_num), h.2.2.2 (by norm_num)⟩

/-- C10: tilt_head treats every direction other than exactly "left" as a
right tilt with roll equal to minus the clamped angle (no fallback to center,
no warning logged), clamps the angle into [5, 30] so that a requested angle
below 5 becomes 5, and echoes the callers direction string verbatim in the
returned message. -/
theorem tilt_head_behavior (et : ℕ → ℚ) (fails : ℕ → Bool) (d : String) (ang : ℚ) :
    (tilt_head d ang et fails).calls =
      [{ head := some ⟨if d = "left" then clampTilt ang else -clampTilt ang, 0, 0⟩,
         antennas := none, duration := 0.4 }] ∧
    (tilt_head d ang et fails).ret = "Tilted head " ++ d ∧
    (tilt_head d ang et fails).hasWarning = false ∧
    (ang < 5 → clampTilt ang = 5) := by
  refine ⟨?_, rfl, ?_, ?_⟩
  · simp [tilt_head, OpResult.calls, runSteps, stepCall]
  · simp [tilt_head, OpResult.hasWarning, List.any_append, stepErrorLogs_no_warning]
  · intro h
    unfold clampTilt
    rw [min_eq_right (by linarith : ang ≤ 30), max_eq_left h.le]

/-- Witness for C10 at the unknown direction "up" and the small angle 3: the
angle clamps up to 5 and the echoed string keeps "up". -/
theorem tilt_head_behavior_witness :
    (tilt_head "up" 3 etZero noFail).ret = "Tilted head up" ∧ clampTilt 3 = 5 := by
  have h := tilt_head_behavior etZero noFail "up" 3
  exact ⟨h.2.1, h.2.2.2 (by norm_num)⟩

/-- C5: a device failure during one step of a choreography is absorbed at the
_goto_target boundary: the call trace of the happy choreography (the 3-step
example of the specification) is the full choreography for every failure
oracle - so a failure of step 2 still leaves steps 1 and 3 issued - the trace
does not depend on which calls fail, and a failing step 2 is logged with the
motion-error record. -/
theorem device_failure_nonfatal (et : ℕ → ℚ) (fails fails2 : ℕ → Bool) :
    (express_emotion "happy" et fails).calls = happySteps.map stepCall ∧
    (express_emotion "happy" et fails).calls = (express_emotion "happy" et fails2).calls ∧
    (express_emotion "happy" et fails).trace.length = 3 ∧
    ((express_emotion "happy" et fails).trace.map fun s => s.failed) =
      [fails 0, fails 1, fails 2] ∧
    (fails 1 = true → motionErrorLog ∈ (express_emotion "happy" et fails).logs) := by
  have hh : emotionSteps "happy" = some happySteps := rfl
  have hcalls : ∀ g : ℕ → Bool,
      (express_emotion "happy" et g).calls = happySteps.map stepCall := by
    intro g
    simp [express_emotion, hh, OpResult.calls, runSteps_calls]
  refine ⟨hcalls fails, (hcalls fails).trans (hcalls fails2).symm, ?_, ?_, ?_⟩
  · simp [express_emotion, hh, runSteps_length, happySteps]
  · simp [express_emotion, hh, happySteps, runSteps]
  · intro h1
    cases h0 : fails 0 <;> cases h2 : fails 2 <;>
      simp [express_emotion, hh, happySteps, runSteps, stepErrorLogs,
        List.filterMap_cons, h0, h1, h2]

/-- Witness for C5 with the oracle that fails exactly the second device call:
the full happy call list is still issued and the failure is logged. -/
theorem device_failure_nonfatal_witness :
    motionErrorLog ∈ (express_emotion "happy" etZero failSecond).logs ∧
    (express_emotion "happy" etZero failSecond).calls = happySteps.map stepCall := by
  have h := device_failure_nonfatal etZero failSecond noFail
  exact ⟨h.2.2.2.2 (by decide), h.1⟩

/-- An append whose left part is nonempty is nonempty. -/
theorem ne_empty_left (a b : String) (h : a ≠ "") : a ++ b ≠ "" := by
  intro hc
  apply h
  have hd := congrArg String.data hc
  rw [String.data_append] at hd
  rcases List.append_eq_nil.mp hd with ⟨h1, _⟩
  exact String.ext (by simpa using h1)

/-- C6: every facade operation is total. The two operations whose body
subscripts a dict resolve to a result for every input (the KeyError branch,
modelled as none, is unreachable), and every operation returns a nonempty
descriptive string for every name, every number, every count and every
behavior of the device, including a failing one. -/
theorem facade_total (et : ℕ → ℚ) (fails : ℕ → Bool) (d x e st err : String)
    (r p y dur ra la ang : ℚ) (times : ℤ) (wf sf : Bool) :
    (move_head d dur et fails).isSome = true ∧
    ((move_head d dur et fails).all fun rr => decide (rr.ret ≠ "")) = true ∧
    (antenna_expression x et fails).isSome = true ∧
    ((antenna_expression x et fails).all fun rr => decide (rr.ret ≠ "")) = true ∧
    (move_head_precise r p y dur et fails).ret ≠ "" ∧
    (move_antennas ra la dur et fails).ret ≠ "" ∧
    (nod_yes times et fails).ret ≠ "" ∧
    (shake_no times et fails).ret ≠ "" ∧
    (tilt_head d ang et fails).ret ≠ "" ∧
    (look_at_camera et fails).ret ≠ "" ∧
    (wake_up wf err).ret ≠ "" ∧
    (go_to_sleep sf err).ret ≠ "" ∧
    (express_emotion e et fails).ret ≠ "" ∧
    (do_dance st et fails).ret ≠ "" ∧
    (reset_position et fails).ret ≠ "" := by
  have hcen : poses.lookup "center" = some ⟨0, 0, 0⟩ := rfl
  have hneu : antennaPresets.lookup "neutral" = some ⟨0, 0⟩ := rfl
  refine ⟨?_, ?_, ?_, ?_, ?_, ?_, ?_, ?_, ?_, ?_, ?_, ?_, ?_, ?_, ?_⟩
  · cases hlk : poses.lookup d with
    | none => simp [move_head, hlk, hcen]
    | some o => simp [move_head, hlk]
  · cases hlk : poses.lookup d with
    | none =>
      simp [move_head, hlk, hcen]
    | some o =>
      simp [move_head, hlk]
      exact ne_empty_left _ _ (by decide)
  · cases hlk : antennaPresets.lookup x with
    | none => simp [antenna_expression, hlk, hneu]
    | some a => simp [antenna_expression, hlk]
  · cases hlk : antennaPresets.lookup x with
    | none =>
      simp [antenna_expression, hlk, hneu]
    | some a =>
      simp [antenna_expression, hlk]
      exact ne_empty_left _ _ (by decide)
  · simp only [move_head_precise]
    repeat' apply ne_empty_left
    decide
  · simp only [move_antennas]
    repeat' apply ne_empty_left
    decide
  · simp only [nod_yes]
    repeat' apply ne_empty_left
    decide
  · simp only [shake_no]
    repeat' apply ne_empty_left
    decide
  · simp only [tilt_head]
    repeat' apply ne_empty_left
    decide
  · simp only [look_at_camera]
    decide
  · cases wf <;> simp [wake_up]
    all_goals exact ne_empty_left _ _ (by decide)
  · cases sf <;> simp [go_to_sleep]
    all_goals exact ne_empty_left _ _ (by decide)
  · cases hs : emotionSteps e with
    | none =>
      simp [express_emotion, hs]
      exact ne_empty_left _ _ (by decide)
    | some steps =>
      simp [express_emotion, hs]
      exact ne_empty_left _ _ (by decide)
  · simp only [do_dance]
    repeat' apply ne_empty_left
    decide
  · simp only [reset_position]
    decide

/-- Counterexample to C1 as stated: at the unknown name "bananas",
express_emotion issues no device call at all and replies
"Unknown emotion: bananas" instead of resolving to any default variant, and
neither antenna_expression (which does fall back to neutral) nor do_dance
(which dances the default branch) logs the fallback. -/
theorem unknown_fallback_counterexample :
    (express_emotion "bananas" etZero noFail).trace = [] ∧
    (express_emotion "bananas" etZero noFail).ret = "Unknown emotion: bananas" ∧
    ((antenna_expression "bananas" etZero noFail).map OpResult.hasWarning) = some false ∧
    (do_dance "bananas" etZero noFail).hasWarning = false := by
  have hb : emotionSteps "bananas" = none := rfl
  have hnb : antennaPresets.lookup "bananas" = none := rfl
  have hneu : antennaPresets.lookup "neutral" = some ⟨0, 0⟩ := rfl
  have hds : ("bananas" : String) ≠ "silly" := by decide
  refine ⟨?_, ?_, ?_, ?_⟩
  · simp [express_emotion, hb]
  · simp [express_emotion, hb]
  · simp [antenna_expression, hnb, hneu, OpResult.hasWarning, runSteps, stepErrorLogs,
      noFail, List.filterMap_cons]
  · simp [do_dance, danceSteps, hds, OpResult.hasWarning, List.any_append,
      stepErrorLogs_no_warning]

/-- C1 as amended: unknown names never raise and are handled per operation as
the source does - move_head falls back to the center pose and logs a warning;
antenna_expression falls back to the neutral preset silently (no warning);
express_emotion performs no movement, logs a warning and replies
"Unknown emotion: ..."; do_dance treats every style other than "silly" as the
default dance silently and echoes the given style. -/
theorem unknown_fallback_amended (et : ℕ → ℚ) (fails : ℕ → Bool)
    (d x e st : String) (dur : ℚ) :
    ((poses.lookup d).isNone = true →
      (move_head d dur et fails).map (fun rr => (rr.calls, rr.hasWarning, rr.ret)) =
        some ([{ head := some ⟨0, 0, 0⟩, antennas := none, duration := dur }], true,
          "Moved head center")) ∧
    ((antennaPresets.lookup x).isNone = true →
      (antenna_expression x et fails).map (fun rr => (rr.calls, rr.hasWarning, rr.ret)) =
        some ([{ head := none, antennas := some ⟨0, 0⟩, duration := 0.3 }], false,
          "Set antennas to neutral")) ∧
    ((emotionTable.lookup e).isNone = true →
      (express_emotion e et fails).calls = [] ∧
      (express_emotion e et fails).hasWarning = true ∧
      (express_emotion e et fails).ret = "Unknown emotion: " ++ e) ∧
    (st ≠ "silly" →
      (do_dance st et fails).calls = (do_dance "default" et fails).calls ∧
      (do_dance st et fails).hasWarning = false ∧
      (do_dance st et fails).ret = "Finished " ++ st ++ " dance") := by
  have hcen : poses.lookup "center" = some ⟨0, 0, 0⟩ := rfl
  have hneu : antennaPresets.lookup "neutral" = some ⟨0, 0⟩ := rfl
  have hdef : ("default" : String) ≠ "silly" := by decide
  refine ⟨?_, ?_, ?_, ?_⟩
  · intro h
    simp [move_head, h, hcen, OpResult.calls, OpResult.hasWarning, runSteps, stepCall]
  · intro h
    simp [antenna_expression, h, hneu, OpResult.calls, OpResult.hasWarning, runSteps,
      stepCall, List.any_append, stepErrorLogs_no_warning]
  · intro h
    have hs : emotionSteps e = none := by
      simpa [emotionSteps, Option.isNone_iff_eq_none] using h
    simp [express_emotion, hs, OpResult.calls, OpResult.hasWarning]
  · intro h
    refine ⟨?_, ?_, rfl⟩
    · simp [do_dance, danceSteps, h, hdef, OpResult.calls, runSteps_calls]
    · simp [do_dance, OpResult.hasWarning, List.any_append, stepErrorLogs_no_warning]

/-- Witness for the amended C1 at concrete unknown names. -/
theorem unknown_fallback_amended_witness :
    (move_head "nope" 0.5 etZero noFail).map
        (fun rr => (rr.calls, rr.hasWarning, rr.ret)) =
      some ([{ head := some ⟨0, 0, 0⟩, antennas := none, duration := 0.5 }], true,
        "Moved head center") ∧
    (express_emotion "whatever" etZero noFail).hasWarning = true ∧
    (do_dance "weird" etZero noFail).ret = "Finished weird dance" := by
  have h := unknown_fallback_amended etZero noFail "nope" "nada" "whatever" "weird" 0.5
  exact ⟨h.1 (by decide), (h.2.2.1 (by decide)).2.1, (h.2.2.2 (by decide)).2.2⟩

end ReachyMovements
